import Mathlib

/-!
Verification of the mick-jaeger span pipeline (`src/lib.rs`).

We give a shallow embedding of the span lifecycle of the library and batched
delivery pipeline: the tag/log value model, `Span` construction
(`TracesIn::span`, `Span::child`), tag and log attachment, span
finalization (`impl Drop for Span`), the bounded mpsc channel with
non-blocking `try_send`, and the consumer side (`TracesOut::next` built
on `ready_chunks(64)`).

Modelling conventions:
- `SystemTime` values are modelled as nanoseconds since the Unix epoch
  (a `Nat`); `Duration::as_micros` is division by 1000.
- Machine integers are `Nat`/`Int`; `i64::from_ne_bytes` of an unsigned
  bit pattern is an explicit reinterpretation modulo 2 ^ 64.
- `to_ne_bytes` / `from_ne_bytes` depend on the native byte
  order of the platform, so the byte-level conversions take an explicit `Endianness`
  argument.
- Randomness (`rand::random`) and the current clock reading are passed
  in as explicit arguments to the operations that sample them.
- The external thrift codec (module `glue` and the generated thrift
  client) is out of scope: the consumer model yields the assembled
  `Batch` value that the code hands to `emit_batch`, rather than the
  encoded bytes.
-/

namespace MickJaeger

/-- Tag value types of the wire model (`protocol::jaeger::TagType`);
only `string` and `long` are produced by the constructors of this crate. -/
inductive TagType
  | string
  | double
  | bool
  | long
  | binary

/-- A typed key/value attribute (`protocol::jaeger::Tag`): one key and
exactly one populated value variant. -/
structure Tag where
  key : String
  v_type : TagType
  v_str : Option String
  v_long : Option Int
  v_double : Option Float
  v_bool : Option Bool
  v_binary : Option (List Nat)

/-- Source `fn int_tag(key: &str, value: i64) -> Tag` from `lib.rs`. -/
def int_tag (key : String) (value : Int) : Tag :=
  { key := key
    v_type := TagType.long
    v_long := some value
    v_str := none
    v_double := none
    v_bool := none
    v_binary := none }

/-- Source `fn string_tag(key: &str, value: &str) -> Tag` from `lib.rs`. -/
def string_tag (key : String) (value : String) : Tag :=
  { key := key
    v_type := TagType.string
    v_str := some value
    v_long := none
    v_double := none
    v_bool := none
    v_binary := none }

/-- Value of `env!("CARGO_PKG_NAME")`: the name of the crate itself, substituted
at build time from the package manifest. -/
def cargoPkgName : String := "mick-jaeger"

/-- Value of `env!("CARGO_PKG_VERSION")`: the version string of the crate,
substituted at build time from the package manifest. -/
def cargoPkgVersion : String := "0.1.0"

/-- Source `fn base_tags() -> Vec<Tag>` from `lib.rs`: the two library-identity
tags seeded into the tag list of every span. -/
def base_tags : List Tag :=
  [string_tag "otel.library.name" cargoPkgName,
   string_tag "otel.library.version" cargoPkgVersion]

/-- A span log entry on the wire (`protocol::jaeger::Log`): a timestamp
in signed 64-bit microseconds plus a list of tag fields. -/
structure JLog where
  timestamp : Int
  fields : List Tag

/-- A span reference (`protocol::jaeger::SpanRef`); never constructed by
this crate (`references: None` in the finalization path). -/
structure SpanRef where
  ref_type : Int
  trace_id_low : Int
  trace_id_high : Int
  span_id : Int

/-- A finished-span record (`protocol::jaeger::Span`), with exactly the
fields populated by `impl Drop for Span` in `lib.rs`. -/
structure JSpan where
  trace_id_low : Int
  trace_id_high : Int
  span_id : Int
  parent_span_id : Int
  operation_name : String
  references : Option (List SpanRef)
  flags : Int
  start_time : Int
  duration : Int
  tags : Option (List Tag)
  logs : Option (List JLog)

/-- Process metadata (`protocol::jaeger::Process`): the service name and
the process-level tag list attached to every batch. -/
structure Process where
  service_name : String
  tags : Option (List Tag)

/-- A batch (`protocol::jaeger::Batch`): the value handed to
`emit_batch` once per successful `TracesOut::next` call. -/
structure Batch where
  spans : List JSpan
  process : Process

/-! ## Integer and byte-order model -/

/-- Constant `i64::MAX` as a natural number: `2^63 - 1`. -/
def i64MaxNat : Nat := 2 ^ 63 - 1

/-- Model of `i64::try_from(n).unwrap_or(i64::max_value())` for a nonnegative
`u128` quantity `n`: the identity below `i64::MAX`, clamped above it. -/
def clampI64 (n : Nat) : Int :=
  if n ≤ i64MaxNat then (n : Int) else (i64MaxNat : Int)

/-- Reinterpretation of a `u64` bit pattern as an `i64` (wrap around at
`2 ^ 63`), as performed by `i64::from_ne_bytes(u64::to_ne_bytes(_))`. -/
def reinterpretU64 (n : Nat) : Int :=
  if n < 2 ^ 63 then (n : Int) else (n : Int) - 2 ^ 64

/-- Native byte order of the platform the crate is compiled for.
`to_ne_bytes` / `from_ne_bytes` in the source depend on it. -/
inductive Endianness
  | little
  | big

/-- Little-endian byte decomposition: `toBytesLE w v` is the `w`-byte
little-endian representation of `v` (least significant byte first). -/
def toBytesLE : Nat → Nat → List Nat
  | 0, _ => []
  | w + 1, v => v % 256 :: toBytesLE w (v / 256)

/-- Recompose a little-endian byte list into a natural number. -/
def fromBytesLE : List Nat → Nat
  | [] => 0
  | b :: bs => b + 256 * fromBytesLE bs

/-- Model of `u128::to_ne_bytes` for the given native byte order. -/
def u128ToNeBytes : Endianness → Nat → List Nat
  | Endianness.little, v => toBytesLE 16 v
  | Endianness.big, v => (toBytesLE 16 v).reverse

/-- Model of `u64::to_ne_bytes` for the given native byte order. -/
def u64ToNeBytes : Endianness → Nat → List Nat
  | Endianness.little, v => toBytesLE 8 v
  | Endianness.big, v => (toBytesLE 8 v).reverse

/-- Model of `i64::from_ne_bytes` for the given native byte order: recompose an
8-byte list and reinterpret the bit pattern as a signed 64-bit value. -/
def i64FromNeBytes : Endianness → List Nat → Int
  | Endianness.little, bs => reinterpretU64 (fromBytesLE bs)
  | Endianness.big, bs => reinterpretU64 (fromBytesLE bs.reverse)

/-- The `trace_id_low` field computed in `impl Drop for Span`:
`i64::from_ne_bytes(&trace_id.to_ne_bytes()[8..])`. -/
def traceIdLowField (e : Endianness) (trace_id : Nat) : Int :=
  i64FromNeBytes e ((u128ToNeBytes e trace_id).drop 8)

/-- The `trace_id_high` field computed in `impl Drop for Span`:
`i64::from_ne_bytes(&trace_id.to_ne_bytes()[..8])`. -/
def traceIdHighField (e : Endianness) (trace_id : Nat) : Int :=
  i64FromNeBytes e ((u128ToNeBytes e trace_id).take 8)

/-- The `span_id` / `parent_span_id` field conversion in
`impl Drop for Span`: `i64::from_ne_bytes(id.to_ne_bytes())`. -/
def spanIdField (e : Endianness) (id : Nat) : Int :=
  i64FromNeBytes e (u64ToNeBytes e id)

/-- The most-significant 64 bits of a 128-bit trace id, as the signed
64-bit value that the Jaeger field `traceIdHigh` is documented to carry. -/
def msHalf (trace_id : Nat) : Int :=
  reinterpretU64 (trace_id / 2 ^ 64 % 2 ^ 64)

/-- The least-significant 64 bits of a 128-bit trace id, as the signed
64-bit value that the Jaeger field `traceIdLow` is documented to carry. -/
def lsHalf (trace_id : Nat) : Int :=
  reinterpretU64 (trace_id % 2 ^ 64)

/-! ## Span model -/

/-- The in-flight `Span` struct from `lib.rs`. The `traces_in` back
reference (the shared channel handle) is kept outside the structure and
passed explicitly to the finalization step; times are nanoseconds since
the Unix epoch. -/
structure Span where
  trace_id : Nat
  span_id : Nat
  parent_span_id : Nat
  operation_name : String
  start_time : Nat
  tags : List Tag
  logs : List JLog

/-- Source `TracesIn::span`: builds a root span. `trace_id` is the non-zero
128-bit id supplied by the caller, `fresh_span_id` the value sampled by
`rand::random()`, `nowNs` the `SystemTime::now()` reading. -/
def TracesIn.span (trace_id : Nat) (operation_name : String)
    (fresh_span_id : Nat) (nowNs : Nat) : Span :=
  { trace_id := trace_id
    span_id := fresh_span_id
    parent_span_id := 0
    operation_name := operation_name
    start_time := nowNs
    tags := base_tags
    logs := [] }

/-- Source `Span::child`: builds a child span of `s`, inheriting the trace id
and recording the span id of `s` as the parent span id. -/
def Span.child (s : Span) (operation_name : String)
    (fresh_span_id : Nat) (nowNs : Nat) : Span :=
  { trace_id := s.trace_id
    span_id := fresh_span_id
    parent_span_id := s.span_id
    operation_name := operation_name
    start_time := nowNs
    tags := base_tags
    logs := [] }

/-- Source `Span::add_string_tag`: appends a string tag to the tag list of the
span (no deduplication). -/
def Span.add_string_tag (s : Span) (key value : String) : Span :=
  { s with tags := s.tags ++ [string_tag key value] }

/-- Source `Span::add_int_tag`: appends an integer tag to the tag list of the
span (no deduplication). -/
def Span.add_int_tag (s : Span) (key : String) (value : Int) : Span :=
  { s with tags := s.tags ++ [int_tag key value] }

/-- One call to either public tag-attachment method. -/
inductive TagOp
  | str (key value : String)
  | int (key : String) (value : Int)

/-- The tag a single attachment call produces. -/
def TagOp.toTag : TagOp → Tag
  | TagOp.str k v => string_tag k v
  | TagOp.int k v => int_tag k v

/-- Apply one tag-attachment call to a span. -/
def Span.applyTagOp (s : Span) : TagOp → Span
  | TagOp.str k v => s.add_string_tag k v
  | TagOp.int k v => s.add_int_tag k v

/-- Apply a sequence of tag-attachment calls to a span, in order. -/
def Span.applyTagOps (s : Span) (ops : List TagOp) : Span :=
  ops.foldl Span.applyTagOp s

/-- Model of the borrowing `Log` builder from `lib.rs` (the exclusive borrow of the
parent span is implicit in how `finishInto` is applied). -/
structure LogBuilder where
  timestamp : Int
  fields : List Tag

/-- Source `Span::log`: opens a log builder, capturing the current time as a
clamped signed 64-bit microsecond timestamp. -/
def Span.log (nowNs : Nat) : LogBuilder :=
  { timestamp := clampI64 (nowNs / 1000)
    fields := [] }

/-- Source `Log::with_string`: appends a string field to the builder. -/
def LogBuilder.with_string (l : LogBuilder) (key value : String) : LogBuilder :=
  { l with fields := l.fields ++ [string_tag key value] }

/-- Source `Log::with_int`: appends an integer field to the builder. -/
def LogBuilder.with_int (l : LogBuilder) (key : String) (value : Int) : LogBuilder :=
  { l with fields := l.fields ++ [int_tag key value] }

/-- Apply one builder call to a log builder. -/
def LogBuilder.applyOp (l : LogBuilder) : TagOp → LogBuilder
  | TagOp.str k v => l.with_string k v
  | TagOp.int k v => l.with_int k v

/-- Apply a sequence of builder calls to a log builder, in order. -/
def LogBuilder.applyOps (l : LogBuilder) (ops : List TagOp) : LogBuilder :=
  ops.foldl LogBuilder.applyOp l

/-- Source `impl Drop for Log`: the completed builder is appended, as one log
entry, to the log list of the owning span. -/
def LogBuilder.finishInto (l : LogBuilder) (s : Span) : Span :=
  { s with logs := s.logs ++ [{ timestamp := l.timestamp, fields := l.fields }] }

/-- The `start_time` field computed in `impl Drop for Span`:
microseconds since the epoch, clamped to `i64::MAX` on overflow
(`duration_since(UNIX_EPOCH)` cannot fail for our nonnegative model). -/
def startTimeField (startNs : Nat) : Int :=
  clampI64 (startNs / 1000)

/-- The `duration` field computed in `impl Drop for Span`:
`end_time.duration_since(start_time)` falls back to the zero duration
when the clock went backwards, then microseconds are clamped to
`i64::MAX` on overflow. -/
def durationField (startNs endNs : Nat) : Int :=
  clampI64 ((if startNs ≤ endNs then endNs - startNs else 0) / 1000)

/-- The finished-span record built in `impl Drop for Span`, field by
field, for a platform with native byte order `e` and an end-of-span
clock reading `endNs`. -/
def Span.finish (e : Endianness) (endNs : Nat) (s : Span) : JSpan :=
  { trace_id_low := traceIdLowField e s.trace_id
    trace_id_high := traceIdHighField e s.trace_id
    span_id := spanIdField e s.span_id
    parent_span_id := spanIdField e s.parent_span_id
    operation_name := s.operation_name
    references := none
    flags := 0
    start_time := startTimeField s.start_time
    duration := durationField s.start_time endNs
    tags := some s.tags
    logs := if s.logs.isEmpty then none else some s.logs }

/-! ## Producer side: the bounded channel -/

/-- The producer-visible state of the `futures::channel::mpsc` channel
created by `init` with buffer 256: the buffered records in submission
order, the capacity bound, and whether the receiving side is gone. -/
structure ChannelState where
  buffered : List JSpan
  capacity : Nat
  closed : Bool

/-- The channel as `init` creates it: `mpsc::channel(256)`. -/
def initChannel : ChannelState :=
  { buffered := [], capacity := 256, closed := false }

/-- Model of `Sender::try_send`: non-blocking; enqueues at the back on success,
returns the channel unchanged together with `false` when the channel is
full or the receiver is gone. -/
def trySend (c : ChannelState) (x : JSpan) : ChannelState × Bool :=
  if c.closed = true ∨ c.capacity ≤ c.buffered.length then (c, false)
  else ({ c with buffered := c.buffered ++ [x] }, true)

/-- Source `impl Drop for Span`, end to end: build the finished record and
offer it to the channel with `try_send`, discarding the result
(`let _ = ...`). Total: finalization never surfaces an error. -/
def Span.dropSend (e : Endianness) (endNs : Nat) (s : Span)
    (c : ChannelState) : ChannelState :=
  (trySend c (Span.finish e endNs s)).1

/-! ## Consumer side: `TracesOut` -/

/-- Source struct `Config` from `lib.rs`. -/
structure Config where
  service_name : String

/-- The consumer-visible state of `TracesOut`: the records buffered in
the receiver (in submission order), whether the underlying stream is
terminated (`is_terminated`: producer side closed and everything
drained), the `ready_chunks` capacity, and the process metadata. The
thrift client and byte buffer are the external codec boundary and are
not modelled. -/
structure TracesOutState where
  queue : List JSpan
  terminated : Bool
  chunkCap : Nat
  process : Process

/-- The `TracesOut` value built by `init`: empty queue,
`ready_chunks(64)`, process metadata with the service name and
`tags: Some(vec![])`. -/
def initTracesOut (config : Config) : TracesOutState :=
  { queue := []
    terminated := false
    chunkCap := 64
    process := { service_name := config.service_name, tags := some [] } }

/-- Outcome of polling `TracesOut::next` once: either the future stays
pending, or it completes with the batch handed to `emit_batch` and the
successor consumer state. -/
inductive PollNext
  | pending
  | ready (b : Batch) (s : TracesOutState)

/-- One poll of `TracesOut::next`: if the stream `is_terminated` the
body loops on `futures::pending!()`, so the poll is pending; otherwise
`select_next_some` on `ready_chunks(64)` is pending while no record is
available, and else yields the first `chunkCap` buffered records as one
chunk, which is wrapped with a clone of the process metadata into the
batch given to the codec. -/
def TracesOut.pollNext (s : TracesOutState) : PollNext :=
  if s.terminated then PollNext.pending
  else if s.queue.isEmpty then PollNext.pending
  else PollNext.ready
    { spans := s.queue.take s.chunkCap, process := s.process }
    { s with queue := s.queue.drop s.chunkCap }

/-- Number of spans in the batch a poll produced (0 when pending). -/
def PollNext.spansLength : PollNext → Nat
  | PollNext.pending => 0
  | PollNext.ready b _ => b.spans.length

/-- Number of records still buffered after a poll (0 when pending). -/
def PollNext.leftoverLength : PollNext → Nat
  | PollNext.pending => 0
  | PollNext.ready _ s => s.queue.length

/-- The consumer state after one poll (unchanged when pending). -/
def pollState (s : TracesOutState) : TracesOutState :=
  match TracesOut.pollNext s with
  | PollNext.pending => s
  | PollNext.ready _ s2 => s2

/-- The consumer state after `n` polls. -/
def pollIter : Nat → TracesOutState → TracesOutState
  | 0, s => s
  | n + 1, s => pollIter n (pollState s)

/-- Source `TracesOut::add_string_tag`: appends to the process tag list (the
list is always `Some` as built by `init`). -/
def TracesOut.add_string_tag (s : TracesOutState) (key value : String) :
    TracesOutState :=
  { s with process := { s.process with
      tags := some ((s.process.tags.getD []) ++ [string_tag key value]) } }

/-- Source `TracesOut::add_int_tag`: appends to the process tag list. -/
def TracesOut.add_int_tag (s : TracesOutState) (key : String) (value : Int) :
    TracesOutState :=
  { s with process := { s.process with
      tags := some ((s.process.tags.getD []) ++ [int_tag key value]) } }

/-! ## Concrete fixtures -/

/-- A concrete finished-span record used as channel/queue content in
concrete evaluations. -/
def dummyJSpan : JSpan :=
  { trace_id_low := 0
    trace_id_high := 0
    span_id := 0
    parent_span_id := 0
    operation_name := ""
    references := none
    flags := 0
    start_time := 0
    duration := 0
    tags := some []
    logs := none }

/-- The demo configuration from the crate documentation. -/
def cfgDemo : Config := { service_name := "demo" }

/-- A consumer state, built by `init`, whose receiver has 65 records
buffered — one more than the `ready_chunks` capacity and well below the
channel capacity of 256. -/
def outState65 : TracesOutState :=
  { initTracesOut cfgDemo with queue := List.replicate 65 dummyJSpan }

/-- A consumer state, built by `init`, whose stream has terminated. -/
def outStateTerm : TracesOutState :=
  { initTracesOut cfgDemo with terminated := true }

/-- A full channel: capacity 2, two records buffered. -/
def fullChannel : ChannelState :=
  { buffered := [dummyJSpan, dummyJSpan], capacity := 2, closed := false }

/-- A channel whose receiving side is gone. -/
def closedChannel : ChannelState :=
  { buffered := [], capacity := 256, closed := true }

/-- A span fixture whose clock readings are small. -/
def spanSmall : Span :=
  TracesIn.span 43 "something" 7 10000

/-- A span fixture starting at the epoch. -/
def spanZeroStart : Span :=
  TracesIn.span 1 "zero" 1 0

/-- A span fixture whose start time overflows the signed 64-bit
microsecond range: `1000 * 2 ^ 63` nanoseconds is `2 ^ 63`
microseconds, one past `i64::MAX`. -/
def spanLateStart : Span :=
  TracesIn.span 1 "late" 1 (1000 * 2 ^ 63)

/-- A span fixture whose trace id is `2 ^ 64`: most-significant half 1,
least-significant half 0. -/
def spanHighTrace : Span :=
  TracesIn.span (2 ^ 64) "trace" 1 0

/-- A consumer state, built by `init`, with two records buffered. -/
def outState2 : TracesOutState :=
  { initTracesOut cfgDemo with queue := [dummyJSpan, dummyJSpan] }

/-! ## Helper lemmas -/

theorem Span.applyTagOp_tags (s : Span) (op : TagOp) :
    (s.applyTagOp op).tags = s.tags ++ [op.toTag] := by
  cases op <;> rfl

theorem Span.applyTagOps_tags (ops : List TagOp) (s : Span) :
    (s.applyTagOps ops).tags = s.tags ++ ops.map TagOp.toTag := by
  induction ops generalizing s with
  | nil => simp [Span.applyTagOps]
  | cons op rest ih =>
    rw [Span.applyTagOps, List.foldl_cons]
    rw [show List.foldl Span.applyTagOp (s.applyTagOp op) rest
          = (s.applyTagOp op).applyTagOps rest from rfl]
    rw [ih, Span.applyTagOp_tags]
    simp

theorem LogBuilder.applyOp_fields (l : LogBuilder) (op : TagOp) :
    (l.applyOp op).fields = l.fields ++ [op.toTag] := by
  cases op <;> rfl

theorem LogBuilder.applyOp_timestamp (l : LogBuilder) (op : TagOp) :
    (l.applyOp op).timestamp = l.timestamp := by
  cases op <;> rfl

theorem LogBuilder.applyOps_fields (ops : List TagOp) (l : LogBuilder) :
    (l.applyOps ops).fields = l.fields ++ ops.map TagOp.toTag := by
  induction ops generalizing l with
  | nil => simp [LogBuilder.applyOps]
  | cons op rest ih =>
    rw [LogBuilder.applyOps, List.foldl_cons]
    rw [show List.foldl LogBuilder.applyOp (l.applyOp op) rest
          = (l.applyOp op).applyOps rest from rfl]
    rw [ih, LogBuilder.applyOp_fields]
    simp

theorem LogBuilder.applyOps_timestamp (ops : List TagOp) (l : LogBuilder) :
    (l.applyOps ops).timestamp = l.timestamp := by
  induction ops generalizing l with
  | nil => rfl
  | cons op rest ih =>
    rw [LogBuilder.applyOps, List.foldl_cons]
    rw [show List.foldl LogBuilder.applyOp (l.applyOp op) rest
          = (l.applyOp op).applyOps rest from rfl]
    rw [ih, LogBuilder.applyOp_timestamp]

theorem clampI64_of_gt {n : Nat} (h : i64MaxNat < n) :
    clampI64 n = (i64MaxNat : Int) :=
  if_neg (not_le.mpr h)

theorem pollNext_of_terminated (s : TracesOutState) (h : s.terminated = true) :
    TracesOut.pollNext s = PollNext.pending := by
  simp [TracesOut.pollNext, h]

theorem pollState_of_terminated (s : TracesOutState) (h : s.terminated = true) :
    pollState s = s := by
  simp [pollState, pollNext_of_terminated s h]

theorem pollIter_of_terminated (n : Nat) (s : TracesOutState)
    (h : s.terminated = true) : pollIter n s = s := by
  induction n generalizing s with
  | zero => rfl
  | succ n ih =>
    rw [pollIter, pollState_of_terminated s h]
    exact ih s h

/-! ## Claims -/

/-- Claim C1 (code bug): the claim states that in every finished record
`trace_id_high` holds the most-significant 64 bits of the trace id and
`trace_id_low` the least-significant 64 bits. The source computes both
fields with `to_ne_bytes` / `from_ne_bytes` and fixed slice indices, so
the result depends on the native byte order: for trace id `2 ^ 64`
(most-significant half 1, least-significant half 0) a little-endian
platform stores 1 in `trace_id_low` and 0 in `trace_id_high` — the two
halves are swapped; only a big-endian platform matches the claim. -/
theorem trace_id_split_swapped_on_little_endian :
    msHalf (2 ^ 64) = 1
    ∧ lsHalf (2 ^ 64) = 0
    ∧ (Span.finish Endianness.little 0 spanHighTrace).trace_id_high = 0
    ∧ (Span.finish Endianness.little 0 spanHighTrace).trace_id_low = 1
    ∧ (Span.finish Endianness.big 0 spanHighTrace).trace_id_high = 1
    ∧ (Span.finish Endianness.big 0 spanHighTrace).trace_id_low = 0 := by
  exact ⟨by decide, by decide, by decide, by decide, by decide, by decide⟩

/-- Claim C2 (counterexample): `init` builds the process metadata with
`tags: Some(vec![])` — the process tag list is empty, so it does not
contain the two library name/version tags the claim asserts. -/
theorem init_process_tags_empty :
    (initTracesOut cfgDemo).process.tags = some []
    ∧ ((initTracesOut cfgDemo).process.tags.getD []).length = 0
    ∧ base_tags.length = 2 :=
  ⟨rfl, rfl, rfl⟩

/-- Claim C2 (amended): after initialization the process metadata tag
list is empty; the two default tags recording the library name and
version are instead pre-seeded into the tag list of every span, root or
child, at creation time. -/
theorem library_identity_tags_pre_seeded_on_spans (config : Config)
    (trace_id : Nat) (name : String) (sid nowNs : Nat) (p : Span) :
    (initTracesOut config).process.tags = some []
    ∧ (TracesIn.span trace_id name sid nowNs).tags = base_tags
    ∧ (p.child name sid nowNs).tags = base_tags
    ∧ base_tags = [string_tag "otel.library.name" cargoPkgName,
                   string_tag "otel.library.version" cargoPkgVersion] :=
  ⟨rfl, rfl, rfl, rfl⟩

/-- Claim C3 (counterexample): the receiver is wrapped in
`ready_chunks(64)`, so one call of `TracesOut::next` drains at most 64
records. From a consumer state built by `init` with 65 records
available (well within the channel capacity of 256), one poll yields a
batch of 64 spans and leaves 1 available record behind. -/
theorem next_leaves_record_behind :
    outState65.queue.length = 65
    ∧ (TracesOut.pollNext outState65).spansLength = 64
    ∧ (TracesOut.pollNext outState65).leftoverLength = 1 :=
  ⟨by decide, by decide, by decide⟩

/-- Claim C3 (amended): once at least one finished-span record is
available, `TracesOut::next` completes without further waiting, popping
the first `chunkCap` (64, as configured by `init`) available records in
order into a single batch; when at most `chunkCap` records are
available it drains all of them and leaves nothing behind. -/
theorem next_drains_up_to_chunk_cap (s : TracesOutState)
    (h1 : s.terminated = false) (h2 : s.queue ≠ []) :
    TracesOut.pollNext s = PollNext.ready
      { spans := s.queue.take s.chunkCap, process := s.process }
      { s with queue := s.queue.drop s.chunkCap }
    ∧ (s.queue.length ≤ s.chunkCap →
        s.queue.take s.chunkCap = s.queue ∧ s.queue.drop s.chunkCap = []) := by
  have hq : s.queue.isEmpty = false := by
    cases hq2 : s.queue with
    | nil => exact absurd hq2 h2
    | cons a l => rfl
  refine ⟨?_, ?_⟩
  · simp [TracesOut.pollNext, h1, hq]
  · intro hlen
    exact ⟨List.take_of_length_le hlen, List.drop_eq_nil_of_le hlen⟩

/-- Witness for claim C3: the amended theorem applied to the
`init`-built consumer state with two buffered records. -/
theorem next_drains_up_to_chunk_cap_witness :
    TracesOut.pollNext outState2 = PollNext.ready
      { spans := outState2.queue.take outState2.chunkCap,
        process := outState2.process }
      { outState2 with queue := outState2.queue.drop outState2.chunkCap }
    ∧ (outState2.queue.length ≤ outState2.chunkCap →
        outState2.queue.take outState2.chunkCap = outState2.queue
        ∧ outState2.queue.drop outState2.chunkCap = []) :=
  next_drains_up_to_chunk_cap outState2 rfl (List.cons_ne_nil _ _)

/-- Claim C4 (confirmed): once the consumer stream is terminated,
`TracesOut::next` loops on `futures::pending!()`: every poll, after any
number of polls, is pending, so the operation never completes and never
returns an empty or error result. -/
theorem terminated_next_never_completes (s : TracesOutState)
    (h : s.terminated = true) (n : Nat) :
    TracesOut.pollNext (pollIter n s) = PollNext.pending := by
  rw [pollIter_of_terminated n s h]
  exact pollNext_of_terminated s h

/-- Witness for claim C4: the terminated `init`-built consumer state is
still pending on the fourth poll. -/
theorem terminated_next_never_completes_witness :
    TracesOut.pollNext (pollIter 3 outStateTerm) = PollNext.pending :=
  terminated_next_never_completes outStateTerm rfl 3

/-- Claim C5 (confirmed): span finalization offers the finished record
with `try_send` and discards the result (`let _ = ...`); the model of
the whole drop path is a total function, and when the channel is full
or the consumer is gone it leaves the channel unchanged — the record is
silently dropped, with no error, retry, or blocking. -/
theorem finalization_silent_drop (s : Span) (e : Endianness) (endNs : Nat)
    (c : ChannelState) (h : c.closed = true ∨ c.capacity ≤ c.buffered.length) :
    Span.dropSend e endNs s c = c := by
  simp only [Span.dropSend, trySend]
  rw [if_pos h]

/-- Witness for claim C5: dropping a span on a full channel and on a
channel whose consumer is gone leaves each channel unchanged. -/
theorem finalization_silent_drop_witness :
    Span.dropSend Endianness.little 5 spanSmall fullChannel = fullChannel
    ∧ Span.dropSend Endianness.little 5 spanSmall closedChannel = closedChannel :=
  ⟨finalization_silent_drop spanSmall Endianness.little 5 fullChannel
      (Or.inr (by decide)),
   finalization_silent_drop spanSmall Endianness.little 5 closedChannel
      (Or.inl rfl)⟩

/-- Claim C6 (confirmed): clock anomalies never produce an error in
finalization — if the end time is before the start time the recorded
duration is 0 (the `duration_since` fallback), and if the start
timestamp or the duration exceeds the signed 64-bit microsecond range
the field is clamped to `i64::MAX`. -/
theorem clock_anomalies_clamped (s : Span) (e : Endianness) (endNs : Nat) :
    (endNs < s.start_time → (Span.finish e endNs s).duration = 0)
    ∧ (i64MaxNat < (endNs - s.start_time) / 1000 →
        (Span.finish e endNs s).duration = (i64MaxNat : Int))
    ∧ (i64MaxNat < s.start_time / 1000 →
        (Span.finish e endNs s).start_time = (i64MaxNat : Int)) := by
  refine ⟨?_, ?_, ?_⟩
  · intro h
    show durationField s.start_time endNs = 0
    simp only [durationField]
    rw [if_neg (by omega : ¬ s.start_time ≤ endNs)]
    simp [clampI64]
  · intro h
    show durationField s.start_time endNs = (i64MaxNat : Int)
    simp only [durationField]
    rcases le_or_lt s.start_time endNs with hle | hlt
    · rw [if_pos hle]
      exact clampI64_of_gt h
    · have hz : endNs - s.start_time = 0 := Nat.sub_eq_zero_of_le (Nat.le_of_lt hlt)
      rw [hz] at h
      simp at h
  · intro h
    show startTimeField s.start_time = (i64MaxNat : Int)
    simp only [startTimeField]
    exact clampI64_of_gt h

/-- Witness for claim C6: a span whose clock went backwards records
duration 0; a duration of `2 ^ 63` microseconds and a start time of
`2 ^ 63` microseconds are both clamped to `i64::MAX`. -/
theorem clock_anomalies_clamped_witness :
    (Span.finish Endianness.little 5 spanSmall).duration = 0
    ∧ (Span.finish Endianness.little (1000 * 2 ^ 63) spanZeroStart).duration
        = (i64MaxNat : Int)
    ∧ (Span.finish Endianness.little 0 spanLateStart).start_time
        = (i64MaxNat : Int) :=
  ⟨(clock_anomalies_clamped spanSmall Endianness.little 5).1 (by decide),
   (clock_anomalies_clamped spanZeroStart Endianness.little (1000 * 2 ^ 63)).2.1
      (by decide),
   (clock_anomalies_clamped spanLateStart Endianness.little 0).2.2 (by decide)⟩

/-- Claim C7 (confirmed): a child span inherits the trace id of its
parent, records the span id of the parent as its `parent_span_id`, and
carries the freshly sampled random span id of its own. -/
theorem child_inherits_trace_and_parent_link (p : Span) (name : String)
    (fresh nowNs : Nat) :
    (p.child name fresh nowNs).trace_id = p.trace_id
    ∧ (p.child name fresh nowNs).parent_span_id = p.span_id
    ∧ (p.child name fresh nowNs).span_id = fresh :=
  ⟨rfl, rfl, rfl⟩

/-- Claim C8 (confirmed): attaching any sequence of `N` string or
integer tags to a span yields exactly `N + 2` tags in the finalized
record: the two pre-seeded library-identity tags followed by the `N`
attached tags in append order, duplicates included (the result is the
literal concatenation, with no deduplication). -/
theorem span_tag_attachment_count_and_order (trace_id : Nat) (name : String)
    (sid nowNs : Nat) (ops : List TagOp) (e : Endianness) (endNs : Nat) :
    (Span.finish e endNs ((TracesIn.span trace_id name sid nowNs).applyTagOps ops)).tags
      = some (base_tags ++ ops.map TagOp.toTag)
    ∧ ((Span.finish e endNs ((TracesIn.span trace_id name sid nowNs).applyTagOps ops)).tags.getD
        []).length = ops.length + 2 := by
  have htags : ((TracesIn.span trace_id name sid nowNs).applyTagOps ops).tags
      = base_tags ++ ops.map TagOp.toTag := by
    rw [Span.applyTagOps_tags]
    rfl
  refine ⟨?_, ?_⟩
  · show some ((TracesIn.span trace_id name sid nowNs).applyTagOps ops).tags = _
    rw [htags]
  · show (some ((TracesIn.span trace_id name sid nowNs).applyTagOps ops).tags
        |>.getD []).length = ops.length + 2
    rw [htags]
    simp [base_tags]

/-- Claim C9 (confirmed): opening a log captures the (clamped
microsecond) timestamp of the open-time clock reading, and completing
it after `K` builder calls appends exactly one log entry to the owning
span, containing exactly the `K` fields in call order. -/
theorem log_completion_appends_one_entry (s : Span) (nowNs : Nat)
    (ops : List TagOp) :
    ((LogBuilder.applyOps (Span.log nowNs) ops).finishInto s).logs
      = s.logs ++ [{ timestamp := clampI64 (nowNs / 1000),
                     fields := ops.map TagOp.toTag }]
    ∧ ((LogBuilder.applyOps (Span.log nowNs) ops).finishInto s).logs.length
      = s.logs.length + 1
    ∧ (LogBuilder.applyOps (Span.log nowNs) ops).fields.length = ops.length := by
  have hf : (LogBuilder.applyOps (Span.log nowNs) ops).fields
      = ops.map TagOp.toTag := by
    rw [LogBuilder.applyOps_fields]
    rfl
  have ht : (LogBuilder.applyOps (Span.log nowNs) ops).timestamp
      = clampI64 (nowNs / 1000) := by
    rw [LogBuilder.applyOps_timestamp]
    rfl
  refine ⟨?_, ?_, ?_⟩
  · simp [LogBuilder.finishInto, hf, ht]
  · simp [LogBuilder.finishInto]
  · simp [hf]

/-- Claim C10 (confirmed): in every finished-span record the `logs`
field is `None` exactly when the span accumulated no log entries and
otherwise carries exactly the accumulated entries, while the `tags`
field is always present. -/
theorem finished_record_logs_omitted_tags_present (s : Span)
    (e : Endianness) (endNs : Nat) :
    ((Span.finish e endNs s).logs = none ↔ s.logs = [])
    ∧ (Span.finish e endNs s).logs
        = (if s.logs.isEmpty then none else some s.logs)
    ∧ (Span.finish e endNs s).tags = some s.tags := by
  refine ⟨?_, rfl, rfl⟩
  cases h : s.logs with
  | nil => simp [Span.finish, h]
  | cons a l => simp [Span.finish, h]

end MickJaeger
